import Mathlib

/-!
Verification of the webhook deployment server (scripts/webhook-server.py).

The server authenticates an inbound POST request against a configured
bearer secret and, on success, runs a two-stage external command sequence
(`docker compose ... pull`, then `docker compose ... up -d --remove-orphans`)
against a configured compose file, mapping the outcome to an HTTP response.

The embedding below mirrors the source: pure configuration, an environment
recording file existence and subprocess behaviour, the `deploy` method and
the `do_POST` handler, each returning its result together with the trace of
external command invocations it performed.
-/

/-- Result of a finished subprocess, as produced by `subprocess.run` with
`capture_output=True, text=True`: an integer exit code and captured
stdout/stderr text. -/
structure CmdResult where
  returncode : Int
  stdout : String
  stderr : String
deriving DecidableEq

/-- Server configuration, read once from the environment at startup:
`WEBHOOK_SECRET`, `COMPOSE_DIR`, `COMPOSE_FILE`. -/
structure Config where
  secret : String
  composeDir : String
  composeFile : String
deriving DecidableEq

/-- One external command invocation: the argument vector passed to
`subprocess.run` and its working directory (`cwd=`). -/
structure Invocation where
  argv : List String
  cwd : String
deriving DecidableEq

/-- The parts of the outside world the handler observes: whether a path
exists on the filesystem, and what each subprocess invocation returns. -/
structure Env where
  pathExists : String → Bool
  run : List String → String → CmdResult

/-- An inbound HTTP POST request: the `Authorization` header (absent or
present), the request path and body.  The handler reads only the header. -/
structure Request where
  authorization : Option String
  path : String
  body : String
deriving DecidableEq

/-- An HTTP response: status code and body text. -/
structure Response where
  status : Nat
  body : String
deriving DecidableEq

/-- `Path(d) / f` for the shapes that occur here: joins with a single
separator, as `pathlib` renders `str(Path(COMPOSE_DIR) / COMPOSE_FILE)`. -/
def pathJoin (d f : String) : String :=
  if d = "" then f
  else if d.data.getLast? = some '/' then d ++ f
  else d ++ "/" ++ f

/-- `compose_path = Path(COMPOSE_DIR) / COMPOSE_FILE` (line 66). -/
def composePath (cfg : Config) : String :=
  pathJoin cfg.composeDir cfg.composeFile

/-- Argument vector of the PULL stage (line 74):
`['docker', 'compose', '-f', str(compose_path), 'pull']`. -/
def pullArgv (cfg : Config) : List String :=
  ["docker", "compose", "-f", composePath cfg, "pull"]

/-- Argument vector of the UP stage (line 86):
`['docker', 'compose', '-f', str(compose_path), 'up', '-d', '--remove-orphans']`. -/
def upArgv (cfg : Config) : List String :=
  ["docker", "compose", "-f", composePath cfg, "up", "-d", "--remove-orphans"]

/-- The PULL-stage invocation record: pull argv, run with `cwd=COMPOSE_DIR`. -/
def pullInv (cfg : Config) : Invocation :=
  ⟨pullArgv cfg, cfg.composeDir⟩

/-- The UP-stage invocation record: up argv, run with `cwd=COMPOSE_DIR`. -/
def upInv (cfg : Config) : Invocation :=
  ⟨upArgv cfg, cfg.composeDir⟩

/-- `WebhookHandler.deploy` (lines 64-92).  Returns either the raised
`FileNotFoundError` message (`Except.error`) or the `CmdResult` the method
returns (`Except.ok`), paired with the list of subprocess invocations it
performed, in order. -/
def deploy (cfg : Config) (env : Env) : Except String CmdResult × List Invocation :=
  if env.pathExists (composePath cfg) = false then
    (Except.error ("Compose file not found: " ++ composePath cfg), [])
  else
    let pull_result := env.run (pullArgv cfg) cfg.composeDir
    if pull_result.returncode ≠ 0 then
      (Except.ok pull_result, [pullInv cfg])
    else
      let up_result := env.run (upArgv cfg) cfg.composeDir
      (Except.ok up_result, [pullInv cfg, upInv cfg])

/-- Lines 43-62 of `do_POST`: run the deployment and map its outcome to the
HTTP response (200 on exit 0, 500 with `Deployment failed: <stderr>` on a
non-zero exit, 500 with `Error: <message>` when `deploy` raised). -/
def deployAndRespond (cfg : Config) (env : Env) : Response × List Invocation :=
  match deploy cfg env with
  | (Except.error msg, invs) => (⟨500, "Error: " ++ msg⟩, invs)
  | (Except.ok result, invs) =>
      if result.returncode = 0 then
        (⟨200, "Deployment successful"⟩, invs)
      else
        (⟨500, "Deployment failed: " ++ result.stderr⟩, invs)

/-- `WebhookHandler.do_POST` (lines 29-62).  If `SECRET` is non-empty the
`Authorization` header (defaulting to `''` when absent) must equal
`'Bearer ' + SECRET`, otherwise the handler answers 401 `Unauthorized` and
returns without deploying. -/
def do_POST (cfg : Config) (env : Env) (req : Request) : Response × List Invocation :=
  if cfg.secret = "" then
    deployAndRespond cfg env
  else if req.authorization.getD "" = "Bearer " ++ cfg.secret then
    deployAndRespond cfg env
  else
    (⟨401, "Unauthorized"⟩, [])

/-- The request passes the handler's authentication check: either no secret
is configured, or the header matches `Bearer <secret>` exactly. -/
def authOk (cfg : Config) (req : Request) : Prop :=
  cfg.secret = "" ∨ req.authorization.getD "" = "Bearer " ++ cfg.secret

instance (cfg : Config) (req : Request) : Decidable (authOk cfg req) := by
  unfold authOk; infer_instance

/-- Concrete configuration used by the witnesses (the spec's scenario). -/
def demoCfg : Config :=
  ⟨"abc123", "/opt/media-server", "docker-compose.prod.yml"⟩

/-- Environment where the compose file exists and every command exits 0. -/
def okEnv : Env :=
  ⟨fun _ => true, fun _ _ => ⟨0, "", ""⟩⟩

/-- Environment where the compose file exists and the PULL command fails. -/
def pullFailEnv : Env :=
  ⟨fun _ => true,
   fun argv _ => if argv = pullArgv demoCfg then ⟨1, "", "pull refused"⟩ else ⟨0, "", ""⟩⟩

/-- Environment where PULL exits 0 but the UP command fails. -/
def upFailEnv : Env :=
  ⟨fun _ => true,
   fun argv _ => if argv = upArgv demoCfg then ⟨2, "", "up refused"⟩ else ⟨0, "", ""⟩⟩

/-- Environment where the compose file does not exist. -/
def noFileEnv : Env :=
  ⟨fun _ => false, fun _ _ => ⟨0, "", ""⟩⟩

/-- A correctly authenticated request for `demoCfg`. -/
def demoReq : Request :=
  ⟨some "Bearer abc123", "/", ""⟩

/-- A request with no `Authorization` header. -/
def bareReq : Request :=
  ⟨none, "/webhook", "payload"⟩

/-- An authenticated request with different path and body than `demoReq`. -/
def otherReq : Request :=
  ⟨some "Bearer abc123", "/other", "different body"⟩

lemma do_POST_of_authOk (cfg : Config) (env : Env) (req : Request)
    (h : authOk cfg req) : do_POST cfg env req = deployAndRespond cfg env := by
  rcases h with h1 | h2
  · simp [do_POST, h1]
  · by_cases hs : cfg.secret = ""
    · simp [do_POST, hs]
    · simp [do_POST, hs, h2]

lemma deploy_of_noFile (cfg : Config) (env : Env)
    (h : env.pathExists (composePath cfg) = false) :
    deploy cfg env = (Except.error ("Compose file not found: " ++ composePath cfg), []) := by
  simp [deploy, h]

lemma deploy_of_pullFail (cfg : Config) (env : Env)
    (hfile : env.pathExists (composePath cfg) = true)
    (hpull : (env.run (pullArgv cfg) cfg.composeDir).returncode ≠ 0) :
    deploy cfg env = (Except.ok (env.run (pullArgv cfg) cfg.composeDir), [pullInv cfg]) := by
  simp [deploy, hfile, hpull]

lemma deploy_of_pullOk (cfg : Config) (env : Env)
    (hfile : env.pathExists (composePath cfg) = true)
    (hpull : (env.run (pullArgv cfg) cfg.composeDir).returncode = 0) :
    deploy cfg env =
      (Except.ok (env.run (upArgv cfg) cfg.composeDir), [pullInv cfg, upInv cfg]) := by
  simp [deploy, hfile, hpull]

/-- C1: with a non-empty configured secret, any POST whose `Authorization`
header value (absent header reading as `""`) differs from
`"Bearer " ++ secret` is answered 401 with body `"Unauthorized"`, and no
external command is invoked (the invocation trace is empty). -/
theorem unauthorized_post_rejected_without_deploy
    (cfg : Config) (env : Env) (req : Request)
    (hs : cfg.secret ≠ "")
    (ha : req.authorization.getD "" ≠ "Bearer " ++ cfg.secret) :
    do_POST cfg env req = (⟨401, "Unauthorized"⟩, []) := by
  simp [do_POST, hs, ha]

theorem unauthorized_post_rejected_without_deploy_witness :
    do_POST demoCfg okEnv bareReq = (⟨401, "Unauthorized"⟩, []) :=
  unauthorized_post_rejected_without_deploy demoCfg okEnv bareReq
    (by decide) (by decide)

/-- C2: when the PULL stage exits non-zero, `deploy` returns the PULL
result at once with only the PULL command invoked (UP is never run), and
the handler answers 500 with body `"Deployment failed: "` followed by the
PULL stage's captured stderr. -/
theorem pull_failure_stops_deploy_and_reports_stderr
    (cfg : Config) (env : Env) (req : Request)
    (hauth : authOk cfg req)
    (hfile : env.pathExists (composePath cfg) = true)
    (hpull : (env.run (pullArgv cfg) cfg.composeDir).returncode ≠ 0) :
    deploy cfg env = (Except.ok (env.run (pullArgv cfg) cfg.composeDir), [pullInv cfg])
    ∧ do_POST cfg env req =
        (⟨500, "Deployment failed: " ++ (env.run (pullArgv cfg) cfg.composeDir).stderr⟩,
         [pullInv cfg]) := by
  have hd := deploy_of_pullFail cfg env hfile hpull
  refine ⟨hd, ?_⟩
  rw [do_POST_of_authOk cfg env req hauth]
  simp [deployAndRespond, hd, hpull]

theorem pull_failure_stops_deploy_and_reports_stderr_witness :
    deploy demoCfg pullFailEnv
        = (Except.ok (pullFailEnv.run (pullArgv demoCfg) demoCfg.composeDir), [pullInv demoCfg])
    ∧ do_POST demoCfg pullFailEnv demoReq =
        (⟨500, "Deployment failed: "
            ++ (pullFailEnv.run (pullArgv demoCfg) demoCfg.composeDir).stderr⟩,
         [pullInv demoCfg]) :=
  pull_failure_stops_deploy_and_reports_stderr demoCfg pullFailEnv demoReq
    (by decide) (by decide) (by decide)

/-- C3: on an authenticated request, when the compose file exists and both
the PULL and the UP stage exit 0, the handler answers 200 with body exactly
`"Deployment successful"`. -/
theorem successful_deploy_returns_200
    (cfg : Config) (env : Env) (req : Request)
    (hauth : authOk cfg req)
    (hfile : env.pathExists (composePath cfg) = true)
    (hpull : (env.run (pullArgv cfg) cfg.composeDir).returncode = 0)
    (hup : (env.run (upArgv cfg) cfg.composeDir).returncode = 0) :
    (do_POST cfg env req).1 = ⟨200, "Deployment successful"⟩ := by
  have hd := deploy_of_pullOk cfg env hfile hpull
  rw [do_POST_of_authOk cfg env req hauth]
  simp [deployAndRespond, hd, hup]

theorem successful_deploy_returns_200_witness :
    (do_POST demoCfg okEnv demoReq).1 = ⟨200, "Deployment successful"⟩ :=
  successful_deploy_returns_200 demoCfg okEnv demoReq
    (by decide) (by decide) (by decide) (by decide)

/-- C4: on an authenticated request, when PULL exits 0 and UP exits
non-zero, the handler answers 500 with body `"Deployment failed: "`
followed by the UP stage's stderr, and the PULL invocation occurs exactly
once in the trace. -/
theorem up_failure_returns_500_with_up_stderr
    (cfg : Config) (env : Env) (req : Request)
    (hauth : authOk cfg req)
    (hfile : env.pathExists (composePath cfg) = true)
    (hpull : (env.run (pullArgv cfg) cfg.composeDir).returncode = 0)
    (hup : (env.run (upArgv cfg) cfg.composeDir).returncode ≠ 0) :
    (do_POST cfg env req).1 =
        ⟨500, "Deployment failed: " ++ (env.run (upArgv cfg) cfg.composeDir).stderr⟩
    ∧ ((do_POST cfg env req).2).count (pullInv cfg) = 1 := by
  have hd := deploy_of_pullOk cfg env hfile hpull
  rw [do_POST_of_authOk cfg env req hauth]
  constructor
  · simp [deployAndRespond, hd, hup]
  · have hne : pullInv cfg ≠ upInv cfg := by
      simp [pullInv, upInv, pullArgv, upArgv]
    simp [deployAndRespond, hd, hup, List.count_cons, hne]

theorem up_failure_returns_500_with_up_stderr_witness :
    (do_POST demoCfg upFailEnv demoReq).1 =
        ⟨500, "Deployment failed: " ++ (upFailEnv.run (upArgv demoCfg) demoCfg.composeDir).stderr⟩
    ∧ ((do_POST demoCfg upFailEnv demoReq).2).count (pullInv demoCfg) = 1 :=
  up_failure_returns_500_with_up_stderr demoCfg upFailEnv demoReq
    (by decide) (by decide) (by decide) (by decide)

/-- An additional configuration with no secret configured. -/
def emptyCfg : Config :=
  ⟨"", "/opt/media-server", "docker-compose.prod.yml"⟩

lemma pullInv_ne_upInv (cfg : Config) : pullInv cfg ≠ upInv cfg := by
  simp [pullInv, upInv, pullArgv, upArgv]

/-- C5: on an authenticated request, when the file at `composeDir/composeFile`
does not exist, `deploy` raises `FileNotFoundError` with a message containing
`"not found"`, no external command is invoked (empty trace), and the handler
answers 500 with body `"Error: "` followed by that message. -/
theorem missing_compose_file_error_no_commands
    (cfg : Config) (env : Env) (req : Request)
    (hauth : authOk cfg req)
    (hfile : env.pathExists (composePath cfg) = false) :
    deploy cfg env = (Except.error ("Compose file not found: " ++ composePath cfg), [])
    ∧ do_POST cfg env req =
        (⟨500, "Error: " ++ ("Compose file not found: " ++ composePath cfg)⟩, [])
    ∧ ∃ pre post, "Compose file not found: " ++ composePath cfg
        = pre ++ "not found" ++ post := by
  have hd := deploy_of_noFile cfg env hfile
  refine ⟨hd, ?_, ?_⟩
  · rw [do_POST_of_authOk cfg env req hauth]
    simp [deployAndRespond, hd]
  · refine ⟨"Compose file ", ": " ++ composePath cfg, ?_⟩
    have hfold : ("Compose file " ++ "not found") ++ ": " = "Compose file not found: " := by
      decide
    rw [← hfold, String.append_assoc]

theorem missing_compose_file_error_no_commands_witness :
    deploy demoCfg noFileEnv
        = (Except.error ("Compose file not found: " ++ composePath demoCfg), [])
    ∧ do_POST demoCfg noFileEnv demoReq =
        (⟨500, "Error: " ++ ("Compose file not found: " ++ composePath demoCfg)⟩, [])
    ∧ ∃ pre post, "Compose file not found: " ++ composePath demoCfg
        = pre ++ "not found" ++ post :=
  missing_compose_file_error_no_commands demoCfg noFileEnv demoReq
    (by decide) (by decide)

/-- C6: when the configured secret is the empty string, the authentication
branch is skipped entirely: for every request, whatever its headers, the
handler proceeds straight to the deployment (its outcome is
`deployAndRespond`, which does not depend on the request at all). -/
theorem empty_secret_always_authenticated
    (cfg : Config) (env : Env) (req : Request)
    (hs : cfg.secret = "") :
    do_POST cfg env req = deployAndRespond cfg env := by
  simp [do_POST, hs]

theorem empty_secret_always_authenticated_witness :
    do_POST emptyCfg okEnv bareReq = deployAndRespond emptyCfg okEnv :=
  empty_secret_always_authenticated emptyCfg okEnv bareReq (by decide)

/-- C7: a deploy attempt in which the compose file exists and both stages
exit 0 answers 200 and invokes exactly two commands, in order: first
`["docker", "compose", "-f", <composePath>, "pull"]`, then
`["docker", "compose", "-f", <composePath>, "up", "-d", "--remove-orphans"]`,
both with working directory `composeDir`, where `<composePath>` is
`composeDir` joined with `composeFile`.  (Stdout/stderr text capture and the
integer exit code are part of the `Env.run`/`CmdResult` interface itself.) -/
theorem successful_deploy_invokes_pull_then_up
    (cfg : Config) (env : Env) (req : Request)
    (hauth : authOk cfg req)
    (hfile : env.pathExists (composePath cfg) = true)
    (hpull : (env.run (pullArgv cfg) cfg.composeDir).returncode = 0)
    (hup : (env.run (upArgv cfg) cfg.composeDir).returncode = 0) :
    (do_POST cfg env req).1 = ⟨200, "Deployment successful"⟩
    ∧ (do_POST cfg env req).2 =
        [⟨["docker", "compose", "-f", pathJoin cfg.composeDir cfg.composeFile, "pull"],
          cfg.composeDir⟩,
         ⟨["docker", "compose", "-f", pathJoin cfg.composeDir cfg.composeFile,
           "up", "-d", "--remove-orphans"], cfg.composeDir⟩] := by
  have hd := deploy_of_pullOk cfg env hfile hpull
  rw [do_POST_of_authOk cfg env req hauth]
  constructor
  · simp [deployAndRespond, hd, hup]
  · have htr : (deployAndRespond cfg env).2 = [pullInv cfg, upInv cfg] := by
      simp [deployAndRespond, hd, hup]
    rw [htr]
    simp [pullInv, upInv, pullArgv, upArgv, composePath]

theorem successful_deploy_invokes_pull_then_up_witness :
    (do_POST demoCfg okEnv demoReq).1 = ⟨200, "Deployment successful"⟩
    ∧ (do_POST demoCfg okEnv demoReq).2 =
        [⟨["docker", "compose", "-f", pathJoin demoCfg.composeDir demoCfg.composeFile, "pull"],
          demoCfg.composeDir⟩,
         ⟨["docker", "compose", "-f", pathJoin demoCfg.composeDir demoCfg.composeFile,
           "up", "-d", "--remove-orphans"], demoCfg.composeDir⟩] :=
  successful_deploy_invokes_pull_then_up demoCfg okEnv demoReq
    (by decide) (by decide) (by decide) (by decide)

/-- C9: for any two requests that both pass authentication under the same
configuration and environment, the external command invocations (argument
vectors and working directories) are identical — indeed the whole handler
outcome is identical — so no request path, body or header content can
influence which commands are executed. -/
theorem invocations_independent_of_request_content
    (cfg : Config) (env : Env) (req1 req2 : Request)
    (h1 : authOk cfg req1) (h2 : authOk cfg req2) :
    (do_POST cfg env req1).2 = (do_POST cfg env req2).2
    ∧ do_POST cfg env req1 = do_POST cfg env req2 := by
  rw [do_POST_of_authOk cfg env req1 h1, do_POST_of_authOk cfg env req2 h2]
  exact ⟨rfl, rfl⟩

theorem invocations_independent_of_request_content_witness :
    (do_POST demoCfg okEnv demoReq).2 = (do_POST demoCfg okEnv otherReq).2
    ∧ do_POST demoCfg okEnv demoReq = do_POST demoCfg okEnv otherReq :=
  invocations_independent_of_request_content demoCfg okEnv demoReq otherReq
    (by decide) (by decide)

lemma deployAndRespond_trace (cfg : Config) (env : Env) :
    (deployAndRespond cfg env).2 = (deploy cfg env).2 := by
  unfold deployAndRespond
  rcases h : deploy cfg env with ⟨e, invs⟩
  cases e with
  | error m => simp
  | ok r =>
      by_cases hr : r.returncode = 0 <;> simp [hr]

lemma do_POST_trace_cases (cfg : Config) (env : Env) (req : Request) :
    (do_POST cfg env req).2 = [] ∨ (do_POST cfg env req).2 = (deploy cfg env).2 := by
  unfold do_POST
  split_ifs with h1 h2
  · exact Or.inr (deployAndRespond_trace cfg env)
  · exact Or.inr (deployAndRespond_trace cfg env)
  · exact Or.inl rfl

/-- C10: the invocation trace of any handled request has at most two
entries; it is non-empty only if the compose-file existence check passed;
and the UP invocation appears only in the full trace `[PULL, UP]` — PULL
strictly preceding it — and only when the PULL command returned exit code
0. -/
theorem invocation_trace_invariants (cfg : Config) (env : Env) (req : Request) :
    ((do_POST cfg env req).2).length ≤ 2
    ∧ ((do_POST cfg env req).2 ≠ [] → env.pathExists (composePath cfg) = true)
    ∧ (upInv cfg ∈ (do_POST cfg env req).2 →
        (do_POST cfg env req).2 = [pullInv cfg, upInv cfg]
        ∧ (env.run (pullArgv cfg) cfg.composeDir).returncode = 0) := by
  rcases do_POST_trace_cases cfg env req with h | h
  · rw [h]
    exact ⟨by simp, by simp, fun hm => absurd hm (by simp)⟩
  · by_cases hf : env.pathExists (composePath cfg) = true
    · by_cases hp : (env.run (pullArgv cfg) cfg.composeDir).returncode = 0
      · have hd := deploy_of_pullOk cfg env hf hp
        rw [h, hd]
        exact ⟨by simp, fun _ => hf, fun _ => ⟨rfl, hp⟩⟩
      · have hd := deploy_of_pullFail cfg env hf hp
        rw [h, hd]
        refine ⟨by simp, fun _ => hf, fun hm => ?_⟩
        simp only [List.mem_singleton] at hm
        exact absurd hm.symm (pullInv_ne_upInv cfg)
    · have hf' : env.pathExists (composePath cfg) = false := by
        simpa using hf
      have hd := deploy_of_noFile cfg env hf'
      rw [h, hd]
      exact ⟨by simp, fun hne => absurd rfl hne, fun hm => absurd hm (by simp)⟩
